import Mathlib

/-!
Verification of the Onestop identifier generator and entity graph of
`onestop/entities.py` (onestop-id-python-client).

The Python classes are shallowly embedded: entities become structures,
methods become functions, `raise` becomes `Except.error`, in-place
mutation becomes explicit state passing, and `print` output becomes an
explicit log list.  External collaborators (`mzgeohash.encode`,
`mzgeohash.neighborsfit`, the `ogr` centroid reduction) are passed as
function parameters, matching the spec's treatment of them as black
boxes.
-/

deriving instance DecidableEq for Except

namespace Onestop

/-- Longitude/latitude pair standing in for a GeoJSON coordinate value.
The embedded code never inspects coordinate values, so an opaque pair
of integers is a faithful stand-in for the float pair. -/
abbrev Point := Int × Int

/-- Tag mapping attached to provenance records (`tags` / `i.data`). -/
abbrev Tags := List (String × String)

/-- One provenance record of `self.identifiers`:
`{'identifier': ..., 'tags': ...}`. -/
abbrev IdRecord := String × Tags

/-- Errors raised by `onestop/entities.py` (module `errors`) together
with the builtin Python exceptions the embedded code can raise. -/
inductive OnestopError where
  /-- `errors.OnestopNoPoints` -/
  | noPoints
  /-- `errors.OnestopExistingIdentifier` -/
  | existingIdentifier
  /-- builtin `IndexError`: `[...][0]` on an empty list -/
  | indexError
  /-- builtin `TypeError`: subscripting a missing geometry -/
  | typeError
  /-- builtin `AssertionError`: `assert key not in routes` -/
  | assertionError
  deriving DecidableEq

/-! ### Name mangling (`REPLACE_CHAR`, `REPLACE_ABBR`) -/

/-- Python `s.lower()`: lowercase every character (ASCII range, as in
`Char.toLower`; non-ASCII characters are deleted by the final
`REPLACE_CHAR` pass anyway). -/
def pyLower (s : String) : String := ⟨s.data.map Char.toLower⟩

/-- The first four `REPLACE_CHAR` passes (`re.sub` of `:`, `&`, `@`,
`\/`, each to `~`).  Each pass rewrites a distinct single character and
never produces a character a later pass rewrites, so the four global
substitutions compose to this single character map. -/
def replaceSep (c : Char) : Char :=
  if c = ':' then '~'
  else if c = '&' then '~'
  else if c = '@' then '~'
  else if c = '/' then '~'
  else c

/-- Character class `[~0-9a-zA-Z]` of the final `REPLACE_CHAR` pass;
the pass deletes every character outside it. -/
def keepChar (c : Char) : Bool :=
  (48 ≤ c.toNat && c.toNat ≤ 57) || (97 ≤ c.toNat && c.toNat ≤ 122) ||
  (65 ≤ c.toNat && c.toNat ≤ 90) || c = '~'

/-- All five `REPLACE_CHAR` substitutions applied in order. -/
def applyReplaceChar (s : String) : String :=
  ⟨(s.data.map replaceSep).filter keepChar⟩

/-- `OnestopEntity.mangle`: lowercase then apply `REPLACE_CHAR`. -/
def OnestopEntity.mangle (s : String) : String := applyReplaceChar (pyLower s)

/-- Python regex `\b` word characters `[a-zA-Z0-9_]` (the patterns are
byte strings, so `\w` and `\b` are ASCII). -/
def isWordChar (c : Char) : Bool :=
  (48 ≤ c.toNat && c.toNat ≤ 57) || (97 ≤ c.toNat && c.toNat ≤ 122) ||
  (65 ≤ c.toNat && c.toNat ≤ 90) || c = '_'

/-- Literal pattern match at the head of a character list, returning
the remainder on success. -/
def dropPat : List Char → List Char → Option (List Char)
  | [], l => some l
  | _ :: _, [] => none
  | a :: p, c :: l => if a = c then dropPat p l else none

/-- One pass of `re.sub(r'\b<abbr>\b', '', s)`: delete every
non-overlapping occurrence of the nonempty, all-letter pattern
`c0 :: p` that sits at a word boundary on both sides.  `prevW` records
whether the character just before the current position is a word
character (false at the start of the string).  After a deleted match
the previous character is the pattern's last character, a letter, so
`prevW` continues as `true`.  The `fuel` argument makes the recursion
structural; every step consumes at least one character, so calling
with `fuel = l.length` (see `subAbbr`) never exhausts it and the
fuel-0 branch is unreachable. -/
def subAbbrF (c0 : Char) (p : List Char) : Nat → Bool → List Char → List Char
  | 0, _, l => l
  | _ + 1, _, [] => []
  | fuel + 1, prevW, c :: l =>
    match dropPat (c0 :: p) (c :: l) with
    | some r =>
      if !prevW && (match r with | [] => true | d :: _ => !isWordChar d) then
        subAbbrF c0 p fuel true r
      else
        c :: subAbbrF c0 p fuel (isWordChar c) l
    | none => c :: subAbbrF c0 p fuel (isWordChar c) l

/-- One `REPLACE_ABBR` substitution over a whole character list. -/
def subAbbr (c0 : Char) (p : List Char) (prevW : Bool) (l : List Char) : List Char :=
  subAbbrF c0 p l.length prevW l

/-- The `REPLACE_ABBR` pattern list, in source order. -/
def REPLACE_ABBR : List String :=
  ["street", "st", "sts", "ctr", "center", "drive", "dr", "ave", "avenue",
   "av", "boulevard", "blvd", "road", "rd", "alley", "aly", "way",
   "parkway", "pkwy", "lane", "ln", "hwy", "court", "ct"]

/-- Apply one `REPLACE_ABBR` substitution. -/
def subAbbrStr (l : List Char) (p : String) : List Char :=
  match p.data with
  | [] => l
  | c0 :: ptail => subAbbr c0 ptail false l

/-- All 24 `REPLACE_ABBR` substitutions, in order. -/
def stripAbbrs (l : List Char) : List Char := REPLACE_ABBR.foldl subAbbrStr l

/-- `OnestopStop.mangle`: lowercase, strip whole-word road
abbreviations, then apply `REPLACE_CHAR`. -/
def OnestopStop.mangle (s : String) : String :=
  applyReplaceChar ⟨stripAbbrs (pyLower s).data⟩

/-- Python string slicing `s[:n]` (by characters). -/
def strTake (s : String) (n : Nat) : String := ⟨s.data.take n⟩

/-! ### Entities and the parent/child graph

The Python graph is bidirectional and cyclic (a route holds its parent
operator, which holds the route).  Inductive structures cannot be
cyclic, so each structure stores its children; parent sets, where a
method needs them (`OnestopRoute.json`), are passed explicitly.
Python `set`s of entities are modelled as lists (the arena order). -/

structure OnestopStop where
  _name : String
  _onestop : Option String
  /-- `geometry()['coordinates']`; `none` models a missing or falsy
  coordinate value. -/
  _geometry : Option Point
  identifiers : List IdRecord
  tags : Tags
  deriving DecidableEq

/-- `OnestopStop.point`: the stop's coordinates; `none` is falsy. -/
def OnestopStop.point (s : OnestopStop) : Option Point := s._geometry

structure OnestopRoute where
  _name : String
  _onestop : Option String
  _geometry : Option Point
  identifiers : List IdRecord
  tags : Tags
  /-- child stops, linked by `pclink(route, stop)` -/
  children : List OnestopStop
  deriving DecidableEq

/-- `OnestopRoute.stops`: a route's stops are its children. -/
def OnestopRoute.stops (r : OnestopRoute) : List OnestopStop := r.children

structure OnestopOperator where
  _name : String
  _onestop : Option String
  identifiers : List IdRecord
  tags : Tags
  /-- child routes -/
  children : List OnestopRoute
  deriving DecidableEq

/-- `OnestopOperator.routes`: an operator's routes are its children. -/
def OnestopOperator.routes (o : OnestopOperator) : List OnestopRoute := o.children

/-- `OnestopOperator.stops`: union of the stops of every route. -/
def OnestopOperator.stops (o : OnestopOperator) : List OnestopStop :=
  (o.children.map OnestopRoute.stops).flatten

structure OnestopFeed where
  _name : String
  _onestop : Option String
  identifiers : List IdRecord
  tags : Tags
  url : Option String
  sha1 : Option String
  /-- child operators -/
  children : List OnestopOperator
  deriving DecidableEq

/-- `OnestopFeed.operators`: a feed's operators are its children. -/
def OnestopFeed.operators (f : OnestopFeed) : List OnestopOperator := f.children

/-- `OnestopFeed.stops`: union of the stops of every operator. -/
def OnestopFeed.stops (f : OnestopFeed) : List OnestopStop :=
  (f.children.map OnestopOperator.stops).flatten

/-! ### Geohashes -/

/-- `geohash_features`: keep the stops with a truthy point, raise
`OnestopNoPoints` when none remain, then delegate to the external
centroid reduction and `mzgeohash.neighborsfit`. -/
def geohashFeatures (centroid : List Point → Point)
    (neighborsfit : Point → List Point → String)
    (features : List OnestopStop) : Except OnestopError String :=
  let points := features.filterMap OnestopStop.point
  if points = [] then .error .noPoints
  else .ok (neighborsfit (centroid points) points)

/-- `OnestopStop.geohash`: `mzgeohash.encode(self.point())[:10]`, with
the external encoder passed in.  A missing point raises (`TypeError`
inside the encoder call). -/
def OnestopStop.geohash (encode : Point → String) (s : OnestopStop) :
    Except OnestopError String :=
  match s.point with
  | none => .error .typeError
  | some pt => .ok (strTake (encode pt) 10)

/-- `OnestopRoute.geohash`: `geohash_features(self.stops())`. -/
def OnestopRoute.geohash (centroid : List Point → Point)
    (neighborsfit : Point → List Point → String) (r : OnestopRoute) :
    Except OnestopError String :=
  geohashFeatures centroid neighborsfit r.stops

/-- `OnestopOperator.geohash`: `geohash_features(self.stops())`. -/
def OnestopOperator.geohash (centroid : List Point → Point)
    (neighborsfit : Point → List Point → String) (o : OnestopOperator) :
    Except OnestopError String :=
  geohashFeatures centroid neighborsfit o.stops

/-- `OnestopFeed.geohash`: `geohash_features(self.stops())`. -/
def OnestopFeed.geohash (centroid : List Point → Point)
    (neighborsfit : Point → List Point → String) (f : OnestopFeed) :
    Except OnestopError String :=
  geohashFeatures centroid neighborsfit f.stops

/-! ### Onestop identifiers -/

/-- `OnestopEntity.onestop`: return the cached id when `cache` is set
and the cached value is truthy; otherwise build
`'%s-%s-%s' % (onestop_type, self.geohash(), self.mangle(self.name()))`
and store it.  Returns the id together with the new value of the
`_onestop` cache field. -/
def onestopGeneric (typ : String) (gh : Except OnestopError String)
    (mangled : String) (cached : Option String) (cache : Bool) :
    Except OnestopError (String × Option String) :=
  if cache && (match cached with | some v => v != "" | none => false) then
    .ok (cached.getD "", cached)
  else
    gh.map fun g =>
      let v := typ ++ "-" ++ g ++ "-" ++ mangled
      (v, some v)

/-- `onestop()` on a stop (`onestop_type = 's'`, stop mangling, point
geohash). -/
def OnestopStop.onestop (encode : Point → String) (cache : Bool)
    (s : OnestopStop) : Except OnestopError (String × OnestopStop) :=
  (onestopGeneric "s" (s.geohash encode) (OnestopStop.mangle s._name)
      s._onestop cache).map
    fun p => (p.1, { s with _onestop := p.2 })

/-- `onestop()` on a route (`onestop_type = 'r'`). -/
def OnestopRoute.onestop (centroid : List Point → Point)
    (neighborsfit : Point → List Point → String) (cache : Bool)
    (r : OnestopRoute) : Except OnestopError (String × OnestopRoute) :=
  (onestopGeneric "r" (r.geohash centroid neighborsfit)
      (OnestopEntity.mangle r._name) r._onestop cache).map
    fun p => (p.1, { r with _onestop := p.2 })

/-- `onestop()` on an operator (`onestop_type = 'o'`). -/
def OnestopOperator.onestop (centroid : List Point → Point)
    (neighborsfit : Point → List Point → String) (cache : Bool)
    (o : OnestopOperator) : Except OnestopError (String × OnestopOperator) :=
  (onestopGeneric "o" (o.geohash centroid neighborsfit)
      (OnestopEntity.mangle o._name) o._onestop cache).map
    fun p => (p.1, { o with _onestop := p.2 })

/-- `onestop()` on a feed (`onestop_type = 'f'`). -/
def OnestopFeed.onestop (centroid : List Point → Point)
    (neighborsfit : Point → List Point → String) (cache : Bool)
    (f : OnestopFeed) : Except OnestopError (String × OnestopFeed) :=
  (onestopGeneric "f" (f.geohash centroid neighborsfit)
      (OnestopEntity.mangle f._name) f._onestop cache).map
    fun p => (p.1, { f with _onestop := p.2 })

/-! ### Provenance merge -/

/-- `OnestopEntity.add_identifier`: reject a raw identifier already
present, otherwise append the record. -/
def OnestopEntity.add_identifier (ids : List IdRecord) (identifier : String)
    (tags : Tags) : Except OnestopError (List IdRecord) :=
  if identifier ∈ ids.map Prod.fst then .error .existingIdentifier
  else .ok (ids ++ [(identifier, tags)])

/-- `OnestopEntity.merge`: `add_identifier` for each record of the
other entity, in order.  The returned list is `self.identifiers` after
the call — Python mutates the list in place, so records appended before
a raised `OnestopExistingIdentifier` stay appended. -/
def OnestopEntity.merge (a : List IdRecord) :
    List IdRecord → List IdRecord × Option OnestopError
  | [] => (a, none)
  | r :: rest =>
    match OnestopEntity.add_identifier a r.1 r.2 with
    | .ok a2 => OnestopEntity.merge a2 rest
    | .error e => (a, some e)

/-- Number of records of `b` that `merge` appends before hitting a
duplicate (all of them when no duplicate is hit). -/
def mergeOkCount (seen : List String) : List IdRecord → Nat
  | [] => 0
  | r :: rest => if r.1 ∈ seen then 0 else mergeOkCount (seen ++ [r.1]) rest + 1

/-! ### Route ingestion (`OnestopOperator.from_gtfs`, routes loop)

One GTFS route record, as the routes loop of `from_gtfs` sees it: the
display name, the feed-scoped raw identifier `i.feedid(feedid)`, the
raw tag data `i.data`, the geometry, and the stop entities the record's
GTFS stops were grouped into (`j._onestop_parent`). -/
structure RouteRec where
  name : String
  rid : String
  data : Tags
  geometry : Option Point
  stops : List OnestopStop
  deriving DecidableEq

/-- Mutable state of the routes loop of `from_gtfs`: the `routes` dict
(insertion-ordered key/value pairs), the agency's `children` set, the
`route_counter`, and the `print` output so far. -/
structure AgencyState where
  routes : List (String × OnestopRoute)
  children : List OnestopRoute
  route_counter : Nat
  log : List String
  deriving DecidableEq

/-- One iteration of the routes loop of `OnestopOperator.from_gtfs`:
build the route, skip it (with a printed notice) when the record has no
stops, link the stops, compute the id, on a key collision apply the
"temp fix" exactly once (append `~route_counter` to the name, clear the
cached id, recompute, `assert` the new key is fresh), then link the
route to the agency, add its provenance record, and register it. -/
def ingestRoute (centroid : List Point → Point)
    (neighborsfit : Point → List Point → String)
    (st : AgencyState) (rec : RouteRec) : Except OnestopError AgencyState :=
  let route : OnestopRoute :=
    { _name := rec.name, _onestop := none, _geometry := rec.geometry,
      identifiers := [], tags := [], children := [] }
  if rec.stops = [] then
    .ok { st with log := st.log ++ ["Yikes! No stops! Skipping this route."] }
  else
    let route := { route with children := rec.stops }
    match OnestopRoute.onestop centroid neighborsfit true route with
    | .error e => .error e
    | .ok (key, route) =>
      if key ∈ st.routes.map Prod.fst then
        match OnestopRoute.onestop centroid neighborsfit true
            { route with
              _name := route._name ++ "~" ++ toString (st.route_counter + 1),
              _onestop := none } with
        | .error e => .error e
        | .ok (key2, route2) =>
          if key2 ∈ st.routes.map Prod.fst then
            .error .assertionError
          else
            match OnestopEntity.add_identifier route2.identifiers rec.rid
                rec.data with
            | .error e => .error e
            | .ok ids =>
              let routeF := { route2 with identifiers := ids }
              .ok { routes := st.routes ++ [(key2, routeF)],
                    children := st.children ++ [routeF],
                    route_counter := st.route_counter + 1,
                    log := st.log ++
                      ["Route already exists, setting temp fix...",
                       "set key to: " ++ key2] }
      else
        match OnestopEntity.add_identifier route.identifiers rec.rid
            rec.data with
        | .error e => .error e
        | .ok ids =>
          let routeF := { route with identifiers := ids }
          .ok { routes := st.routes ++ [(key, routeF)],
                children := st.children ++ [routeF],
                route_counter := st.route_counter,
                log := st.log }

/-- The whole routes loop of `from_gtfs`, record by record. -/
def ingestRoutes (centroid : List Point → Point)
    (neighborsfit : Point → List Point → String)
    (st : AgencyState) : List RouteRec → Except OnestopError AgencyState
  | [] => .ok st
  | r :: rest =>
    match ingestRoute centroid neighborsfit st r with
    | .error e => .error e
    | .ok st2 => ingestRoutes centroid neighborsfit st2 rest

/-! ### Route serialization (`OnestopRoute.json`) -/

/-- The GeoJSON feature `OnestopRoute.json` emits (constant fields
`type`/`properties` omitted). -/
structure RouteJson where
  geometry : Option Point
  onestopId : String
  name : String
  tags : Tags
  identifiers : List IdRecord
  operatedBy : String
  serves : List String
  deriving DecidableEq

/-- The list comprehension `[i.onestop() for i in <operators>]`:
left-to-right, the first raised error propagates. -/
def operatorOnestops (centroid : List Point → Point)
    (neighborsfit : Point → List Point → String) :
    List OnestopOperator → Except OnestopError (List String)
  | [] => .ok []
  | a :: rest =>
    match OnestopOperator.onestop centroid neighborsfit true a with
    | .error e => .error e
    | .ok q =>
      match operatorOnestops centroid neighborsfit rest with
      | .error e => .error e
      | .ok ids => .ok (q.1 :: ids)

/-- The list comprehension `[i.onestop() for i in self.stops()]`. -/
def stopOnestops (encode : Point → String) :
    List OnestopStop → Except OnestopError (List String)
  | [] => .ok []
  | s :: rest =>
    match OnestopStop.onestop encode true s with
    | .error e => .error e
    | .ok q =>
      match stopOnestops encode rest with
      | .error e => .error e
      | .ok ids => .ok (q.1 :: ids)

/-- `OnestopRoute.json`.  The dict literal's values are evaluated in
source order: `self.onestop()`, then
`[i.onestop() for i in self.agencies()][0]` (an `IndexError` when the
route has no agency parent), then `serves`.  The route's parent set
`agencies` is passed explicitly (see the graph note above). -/
def OnestopRoute.json (encode : Point → String)
    (centroid : List Point → Point)
    (neighborsfit : Point → List Point → String)
    (r : OnestopRoute) (agencies : List OnestopOperator) :
    Except OnestopError RouteJson :=
  match OnestopRoute.onestop centroid neighborsfit true r with
  | .error e => .error e
  | .ok p =>
    match operatorOnestops centroid neighborsfit agencies with
    | .error e => .error e
    | .ok agencyIds =>
      match agencyIds.head? with
      | none => .error .indexError
      | some operatedBy =>
        match stopOnestops encode r.stops with
        | .error e => .error e
        | .ok serves =>
          .ok { geometry := r._geometry, onestopId := p.1, name := r._name,
                tags := r.tags, identifiers := r.identifiers,
                operatedBy := operatedBy, serves := serves }

/-! ### Length-bounded identifiers (transitland `Entity.onestop`)

Modelled from the spec: the length-bounded identifier assembly
(`util.ONESTOP_LENGTH` and the truncating `Entity.onestop` of the
`transitland` package) is not under `src/` — only its test
`TestFeed.test_onestop_maxlen` is.  Spec §4.1: `assembleId(type,
geohash, mangledName)` "concatenates with `-`, truncates mangled-name
tail to respect the maximum total length". -/

/-- Modelled from the spec: the fixed maximum identifier length
(`util.ONESTOP_LENGTH`).  The spec fixes no numeric value, only that it
is a constant and that the test's 130-character name exceeds it. -/
def ONESTOP_LENGTH : Nat := 64

/-- Modelled from the spec: `assembleId(type, geohash, mangledName)` —
concatenate with `-` and truncate the mangled-name tail so the total
length respects `ONESTOP_LENGTH`, leaving the `{type}-{geohash}-`
head intact. -/
def assembleId (typ gh name : String) : String :=
  let mangled := OnestopEntity.mangle name
  let pre := typ ++ "-" ++ gh ++ "-"
  pre ++ strTake mangled (ONESTOP_LENGTH - pre.length)

/-! ### Concrete sample entities and external functions, used by the
witness theorems below -/

/-! ### Concrete sample entities and external functions for witnesses -/

def sampleStop : OnestopStop :=
  { _name := "Main St", _onestop := none, _geometry := some (1, 2),
    identifiers := [], tags := [] }

/-- Same name, geometry and cache state as `sampleStop`, but different
provenance. -/
def sampleStop2 : OnestopStop :=
  { sampleStop with identifiers := [("f1", [])] }

def sampleRoute : OnestopRoute :=
  { _name := "10", _onestop := none, _geometry := none,
    identifiers := [], tags := [], children := [sampleStop] }

/-- Same name and the same reachable stop points as `sampleRoute`, but
serving `sampleStop2` (identical coordinates, different provenance). -/
def sampleRoute2 : OnestopRoute :=
  { _name := "10", _onestop := none, _geometry := none,
    identifiers := [("x", [])], tags := [], children := [sampleStop2] }

def sampleOperator : OnestopOperator :=
  { _name := "Demo Transit Authority", _onestop := none, identifiers := [],
    tags := [], children := [sampleRoute] }

def sampleFeed : OnestopFeed :=
  { _name := "test", _onestop := none, identifiers := [], tags := [],
    url := none, sha1 := none, children := [sampleOperator] }

def sampleEncode : Point → String := fun _ => "9q8yyxyzzz99"

def sampleCentroid : List Point → Point := fun _ => (1, 2)

def sampleNf : Point → List Point → String := fun _ _ => "9qs"

/-- A stop with no locatable coordinates, for witnesses. -/
def unlocatedStop : OnestopStop :=
  { _name := "ghost", _onestop := none, _geometry := none,
    identifiers := [], tags := [] }

/-- A route with no located stops, for witnesses. -/
def emptyRoute : OnestopRoute :=
  { _name := "empty", _onestop := none, _geometry := none,
    identifiers := [], tags := [], children := [unlocatedStop] }

/-- A route already registered under the id `r-9qs-a`, for the C3
witness. -/
def wExistingRoute : OnestopRoute :=
  { _name := "a", _onestop := some "r-9qs-a", _geometry := none,
    identifiers := [("rex", [])], tags := [], children := [sampleStop] }

/-- Agency state already holding `wExistingRoute`. -/
def wState : AgencyState :=
  { routes := [("r-9qs-a", wExistingRoute)], children := [wExistingRoute],
    route_counter := 0, log := [] }

/-- A second raw route record whose id collides with `wExistingRoute`. -/
def wRec : RouteRec :=
  { name := "a", rid := "rnew", data := [], geometry := none,
    stops := [sampleStop] }

/-- A route with a cached id and no stops, for the C9 witness. -/
def wJsonRoute : OnestopRoute :=
  { _name := "x", _onestop := some "r-cached", _geometry := none,
    identifiers := [], tags := [], children := [] }

/-- An operator with a cached id, for the C9 witness. -/
def wAgency : OnestopOperator :=
  { _name := "op", _onestop := some "o-cached", identifiers := [],
    tags := [], children := [] }

/-! ### Character-set facts about mangling -/

/-- Characters the spec allows in a mangled token: lowercase ASCII
letters, digits, and the separator `~`. -/
def allowedChar (c : Char) : Bool :=
  (97 ≤ c.toNat && c.toNat ≤ 122) || (48 ≤ c.toNat && c.toNat ≤ 57) || c = '~'

end Onestop

section MangleExamples

open Onestop

example : OnestopEntity.mangle "Demo Transit Authority" = "demotransitauthority" := by
  decide

example : OnestopEntity.mangle "A & B @ C:D/E" = "a~b~c~d~e" := by decide

example : OnestopStop.mangle "Main Street & 1st Ave" = "main~1st" := by decide

example : OnestopStop.mangle "East ST" = "east" := by decide

end MangleExamples

namespace Onestop

/-! ### Character-set helper lemmas -/

theorem toNat_ofNat_valid (n : Nat) (h : n.isValidChar) :
    (Char.ofNat n).toNat = n := by
  unfold Char.ofNat
  rw [dif_pos h]
  rfl

theorem toLower_not_upper (c : Char) :
    ¬(65 ≤ (Char.toLower c).toNat ∧ (Char.toLower c).toNat ≤ 90) := by
  unfold Char.toLower
  by_cases h : c.toNat ≥ 65 ∧ c.toNat ≤ 90
  · have hv : (c.toNat + 32).isValidChar := Or.inl (by omega)
    rw [if_pos h, toNat_ofNat_valid _ hv]
    omega
  · rw [if_neg h]
    omega

theorem replaceSep_cases (c : Char) : replaceSep c = '~' ∨ replaceSep c = c := by
  unfold replaceSep
  split
  · exact Or.inl rfl
  split
  · exact Or.inl rfl
  split
  · exact Or.inl rfl
  split
  · exact Or.inl rfl
  · exact Or.inr rfl

theorem dropPat_mem :
    ∀ (p l r : List Char), dropPat p l = some r → ∀ c ∈ r, c ∈ l
  | [], l, r => by
    intro h c hc
    simp only [dropPat, Option.some.injEq] at h
    subst h
    exact hc
  | _ :: _, [], _ => by
    intro h
    simp [dropPat] at h
  | a :: p, b :: l, r => by
    intro h c hc
    simp only [dropPat] at h
    split at h
    · exact List.mem_cons_of_mem _ (dropPat_mem p l r h c hc)
    · exact absurd h (by simp)

theorem mem_subAbbrF (c0 : Char) (p : List Char) :
    ∀ (fuel : Nat) (b : Bool) (l : List Char) (c : Char),
      c ∈ subAbbrF c0 p fuel b l → c ∈ l := by
  intro fuel
  induction fuel with
  | zero =>
    intro b l c h
    simpa [subAbbrF] using h
  | succ n ih =>
    intro b l c h
    cases l with
    | nil => simp [subAbbrF] at h
    | cons a l2 =>
      simp only [subAbbrF] at h
      cases hd : dropPat (c0 :: p) (a :: l2) with
      | some r =>
        rw [hd] at h
        simp only at h
        split at h
        · exact dropPat_mem _ _ _ hd c (ih true r c h)
        · rcases List.mem_cons.mp h with h | h
          · exact h ▸ List.mem_cons_self a l2
          · exact List.mem_cons_of_mem _ (ih (isWordChar a) l2 c h)
      | none =>
        rw [hd] at h
        simp only at h
        rcases List.mem_cons.mp h with h | h
        · exact h ▸ List.mem_cons_self a l2
        · exact List.mem_cons_of_mem _ (ih (isWordChar a) l2 c h)

theorem mem_foldl_subAbbrStr :
    ∀ (ps : List String) (l : List Char) (c : Char),
      c ∈ ps.foldl subAbbrStr l → c ∈ l
  | [], l, c => by
    intro h
    simpa using h
  | p :: ps, l, c => by
    intro h
    have h2 := mem_foldl_subAbbrStr ps (subAbbrStr l p) c h
    unfold subAbbrStr at h2
    split at h2
    · exact h2
    · exact mem_subAbbrF _ _ _ _ _ _ h2

theorem mem_stripAbbrs (l : List Char) (c : Char) (h : c ∈ stripAbbrs l) :
    c ∈ l :=
  mem_foldl_subAbbrStr REPLACE_ABBR l c h

theorem pyLower_not_upper (s : String) :
    ∀ c ∈ (pyLower s).data, ¬(65 ≤ c.toNat ∧ c.toNat ≤ 90) := by
  intro c hc
  obtain ⟨d, _, rfl⟩ := List.mem_map.mp hc
  exact toLower_not_upper d

theorem applyReplaceChar_allowed (s : String)
    (hs : ∀ c ∈ s.data, ¬(65 ≤ c.toNat ∧ c.toNat ≤ 90)) :
    ∀ c ∈ (applyReplaceChar s).data, allowedChar c = true := by
  intro c hc
  obtain ⟨hmem, hkeep⟩ := List.mem_filter.mp hc
  obtain ⟨d, hd, rfl⟩ := List.mem_map.mp hmem
  rcases replaceSep_cases d with h | h
  · rw [h]
    decide
  · rw [h] at hkeep ⊢
    have hup := hs d hd
    simp only [keepChar, Bool.or_eq_true, Bool.and_eq_true,
      decide_eq_true_eq] at hkeep
    simp only [allowedChar, Bool.or_eq_true, Bool.and_eq_true,
      decide_eq_true_eq]
    rcases hkeep with ((⟨h1, h2⟩ | ⟨h1, h2⟩) | ⟨h1, h2⟩) | h1
    · exact Or.inl (Or.inr ⟨h1, h2⟩)
    · exact Or.inl (Or.inl ⟨h1, h2⟩)
    · exact absurd ⟨h1, h2⟩ hup
    · exact Or.inr h1

/-! ### String slicing helper lemmas -/

theorem mem_mk_data {l : List Char} {c : Char}
    (h : c ∈ (⟨l⟩ : String).data) : c ∈ l := h

theorem strTake_length (s : String) (n : Nat) :
    (strTake s n).length = min n s.length := by
  show (s.data.take n).length = min n s.data.length
  exact List.length_take n s.data

theorem strTake_append_drop (s : String) (n : Nat) :
    strTake s n ++ ⟨s.data.drop n⟩ = s := by
  apply String.ext
  show (String.mk (s.data.take n) ++ String.mk (s.data.drop n)).data = s.data
  rw [String.data_append]
  exact List.take_append_drop n s.data

theorem strTake_all (s : String) (n : Nat) (h : s.length ≤ n) :
    strTake s n = s := by
  apply String.ext
  show s.data.take n = s.data
  exact List.take_of_length_le h

/-! ### Claim C5 -/

/-- Claim C5: `mangle` is a pure, deterministic function of the display
name and the entity variant.  Both variants lowercase the name; the
Stop variant first strips whole-word roadway abbreviations at word
boundaries (`REPLACE_ABBR`); then both replace `:`, `&`, `@`, `/` by
the separator `~` and delete every remaining character outside
{alphanumeric, `~`} (`REPLACE_CHAR`) — so every character of either
variant's result is a lowercase ASCII alphanumeric or `~`. -/
theorem mangle_spec (s : String) :
    OnestopEntity.mangle s = applyReplaceChar (pyLower s) ∧
    OnestopStop.mangle s = applyReplaceChar ⟨stripAbbrs (pyLower s).data⟩ ∧
    (∀ c ∈ (OnestopEntity.mangle s).data, allowedChar c = true) ∧
    (∀ c ∈ (OnestopStop.mangle s).data, allowedChar c = true) := by
  refine ⟨rfl, rfl, ?_, ?_⟩
  · exact applyReplaceChar_allowed _ (pyLower_not_upper s)
  · refine applyReplaceChar_allowed _ ?_
    intro c hc
    exact pyLower_not_upper s c (mem_stripAbbrs _ c (mem_mk_data hc))

/-- Witness for `mangle_spec` at the concrete name `"A & B"`: the
separator `~` appears in the mangled output and is allowed. -/
theorem mangle_spec_witness : allowedChar '~' = true :=
  (mangle_spec "A & B").2.2.1 '~' (by decide)

/-! ### Claim C1 (length-bounded identifiers, modelled from the spec) -/

/-- Claim C1 (spec-modelled, see `assembleId`): for every entity-type
prefix, geohash and name — including names far longer than the maximum
— the assembled identifier has length at most `ONESTOP_LENGTH`; only
the mangled-name segment is truncated, from its tail, leaving the
`{type}-{geohash}-` head intact; and an identifier that already fits is
left untruncated. -/
theorem assembleId_length_bound (typ gh name : String)
    (h : (typ ++ "-" ++ gh ++ "-").length ≤ ONESTOP_LENGTH) :
    (assembleId typ gh name).length ≤ ONESTOP_LENGTH ∧
    (∃ t, assembleId typ gh name = (typ ++ "-" ++ gh ++ "-") ++ t ∧
      ∃ u, t ++ u = OnestopEntity.mangle name) ∧
    ((typ ++ "-" ++ gh ++ "-").length + (OnestopEntity.mangle name).length ≤
        ONESTOP_LENGTH →
      assembleId typ gh name =
        (typ ++ "-" ++ gh ++ "-") ++ OnestopEntity.mangle name) := by
  refine ⟨?_, ?_, ?_⟩
  · show ((typ ++ "-" ++ gh ++ "-") ++
      strTake (OnestopEntity.mangle name)
        (ONESTOP_LENGTH - (typ ++ "-" ++ gh ++ "-").length)).length ≤
      ONESTOP_LENGTH
    rw [String.length_append, strTake_length]
    omega
  · refine ⟨strTake (OnestopEntity.mangle name)
      (ONESTOP_LENGTH - (typ ++ "-" ++ gh ++ "-").length), rfl,
      ⟨(OnestopEntity.mangle name).data.drop
        (ONESTOP_LENGTH - (typ ++ "-" ++ gh ++ "-").length)⟩, ?_⟩
    exact strTake_append_drop _ _
  · intro hfit
    show (typ ++ "-" ++ gh ++ "-") ++
      strTake (OnestopEntity.mangle name)
        (ONESTOP_LENGTH - (typ ++ "-" ++ gh ++ "-").length) = _
    rw [strTake_all]
    omega

set_option maxRecDepth 10000 in
/-- Witness for `assembleId_length_bound`: the maxlen test's name (the
token `maximumlength` repeated ten times, 130 characters) exceeds the
maximum, yet the assembled feed identifier respects the bound. -/
theorem assembleId_length_bound_witness :
    ONESTOP_LENGTH <
      ("maximumlengthmaximumlengthmaximumlengthmaximumlengthmaximumlengthmaximumlengthmaximumlengthmaximumlengthmaximumlengthmaximumlength" : String).length ∧
    (assembleId "f" "9qs"
      "maximumlengthmaximumlengthmaximumlengthmaximumlengthmaximumlengthmaximumlengthmaximumlengthmaximumlengthmaximumlengthmaximumlength").length ≤
      ONESTOP_LENGTH :=
  ⟨by decide,
   (assembleId_length_bound "f" "9qs"
     "maximumlengthmaximumlengthmaximumlengthmaximumlengthmaximumlengthmaximumlengthmaximumlengthmaximumlengthmaximumlengthmaximumlength"
     (by decide)).1⟩

/-! ### Claim C8 (stop geohash) -/

/-- Claim C8: for every stop that has a point geometry, `geohash()`
returns the external precise encoding of the stop's own coordinates
truncated to its first 10 characters — length at most 10 and a prefix
of the full-precision encoding. -/
theorem stop_geohash_truncates (encode : Point → String) (s : OnestopStop)
    (pt : Point) (h : s._geometry = some pt) :
    OnestopStop.geohash encode s = .ok (strTake (encode pt) 10) ∧
    (strTake (encode pt) 10).length ≤ 10 ∧
    ∃ t, strTake (encode pt) 10 ++ t = encode pt := by
  refine ⟨?_, ?_, ?_⟩
  · unfold OnestopStop.geohash OnestopStop.point
    rw [h]
  · rw [strTake_length]
    omega
  · exact ⟨⟨(encode pt).data.drop 10⟩, strTake_append_drop _ _⟩

/-- Witness for `stop_geohash_truncates` at a concrete stop and a
12-character encoder output. -/
theorem stop_geohash_truncates_witness :
    OnestopStop.geohash (fun _ => "0123456789ab")
      { _name := "Main", _onestop := none, _geometry := some (0, 0),
        identifiers := [], tags := [] } = .ok (strTake "0123456789ab" 10) ∧
    (strTake "0123456789ab" 10).length ≤ 10 ∧
    ∃ t, strTake "0123456789ab" 10 ++ t = "0123456789ab" :=
  stop_geohash_truncates (fun _ => "0123456789ab") _ (0, 0) rfl

end Onestop

namespace Onestop

/-! ### Claim C2 (provenance merge) -/

theorem mergeOkCount_full (b : List IdRecord) :
    ∀ (seen : List String), (b.map Prod.fst).Nodup →
      (∀ i ∈ b.map Prod.fst, i ∉ seen) → mergeOkCount seen b = b.length := by
  induction b with
  | nil =>
    intro seen _ _
    rfl
  | cons r rest ih =>
    intro seen hnd hdisj
    have hr : r.1 ∉ seen := hdisj r.1 (by simp)
    have hnd2 : (rest.map Prod.fst).Nodup :=
      (List.nodup_cons.mp (by simpa using hnd)).2
    have hhead : r.1 ∉ rest.map Prod.fst :=
      (List.nodup_cons.mp (by simpa using hnd)).1
    simp only [mergeOkCount, if_neg hr, List.length_cons]
    rw [ih (seen ++ [r.1]) hnd2]
    intro i hi
    simp only [List.mem_append, List.mem_singleton]
    rintro (h | rfl)
    · exact hdisj i (by simp [hi]) h
    · exact hhead hi

theorem merge_take (b : List IdRecord) : ∀ (a : List IdRecord),
    OnestopEntity.merge a b =
      (a ++ b.take (mergeOkCount (a.map Prod.fst) b),
       if mergeOkCount (a.map Prod.fst) b = b.length then none
       else some OnestopError.existingIdentifier) := by
  induction b with
  | nil =>
    intro a
    simp [OnestopEntity.merge, mergeOkCount]
  | cons r rest ih =>
    intro a
    by_cases h : r.1 ∈ a.map Prod.fst
    · simp only [OnestopEntity.merge, OnestopEntity.add_identifier, if_pos h,
        mergeOkCount, List.take_zero, List.append_nil, List.length_cons]
      rw [if_neg (by omega)]
    · have ih2 := ih (a ++ [r])
      simp only [OnestopEntity.merge, OnestopEntity.add_identifier, if_neg h,
        mergeOkCount, List.map_append, List.map_cons, List.map_nil] at ih2 ⊢
      rw [ih2]
      simp [List.take_succ_cons, List.append_assoc]

/-- Claim C2 (amended): merging B's provenance into A appends B's
records, in order, up to (excluding) the first record whose raw
identifier is already present — in A or among the records of B
appended so far (`mergeOkCount`).  When no such duplicate exists the
whole merge succeeds and A's list becomes the concatenation; when one
exists the merge fails with the duplicate-provenance error, but the
records of B that preceded the duplicate REMAIN appended to A (the
failing merge is not atomic; A is unchanged only when the very first
record processed is a duplicate). -/
theorem merge_characterization (a b : List IdRecord) :
    OnestopEntity.merge a b =
      (a ++ b.take (mergeOkCount (a.map Prod.fst) b),
       if mergeOkCount (a.map Prod.fst) b = b.length then none
       else some OnestopError.existingIdentifier) ∧
    ((b.map Prod.fst).Nodup →
      (∀ i ∈ b.map Prod.fst, i ∉ a.map Prod.fst) →
      OnestopEntity.merge a b = (a ++ b, none)) := by
  refine ⟨merge_take b a, fun hnd hdisj => ?_⟩
  rw [merge_take]
  rw [mergeOkCount_full b (a.map Prod.fst) hnd hdisj]
  simp [List.take_length]

/-- Witness for `merge_characterization`: a disjoint merge of one
fresh record is the concatenation with no error. -/
theorem merge_characterization_witness :
    OnestopEntity.merge [("y", [])] [("x", [])] =
      ([("y", []), ("x", [])], none) :=
  (merge_characterization [("y", [])] [("x", [])]).2 (by decide) (by decide)

/-- Counterexample to claim C2 as stated: B = [x, y] has one raw
identifier (y) already present in A = [y].  The merge call fails with
the duplicate-provenance error, but A's provenance list is NOT left as
it was: the earlier record x of B was already appended (partial
append). -/
theorem merge_not_atomic_counterexample :
    (OnestopEntity.merge [("y", [])] [("x", []), ("y", [])]).2 =
      some OnestopError.existingIdentifier ∧
    (OnestopEntity.merge [("y", [])] [("x", []), ("y", [])]).1 =
      [("y", []), ("x", [])] ∧
    [(("y" : String), ([] : Tags)), ("x", [])] ≠ [("y", [])] := by
  decide

end Onestop

namespace Onestop

/-! ### Claim C4 (deterministic, memoized identifiers) -/

theorem id_ne_empty (typ g m : String) : typ ++ "-" ++ g ++ "-" ++ m ≠ "" := by
  intro h
  have h2 : (typ ++ "-" ++ g ++ "-" ++ m).length = 0 := by rw [h]; rfl
  have h3 : ("-" : String).length = 1 := rfl
  simp only [String.length_append] at h2
  omega

theorem onestopGeneric_fresh (typ : String) (gh : Except OnestopError String)
    (m : String) (q : String × Option String)
    (h : gh.map (fun g =>
      let v := typ ++ "-" ++ g ++ "-" ++ m
      ((v, some v) : String × Option String)) = .ok q) :
    q.2 = some q.1 ∧ q.1 ≠ "" ∧ onestopGeneric typ gh m q.2 true = .ok q := by
  cases gh with
  | error e => simp [Except.map] at h
  | ok g =>
    simp only [Except.map, Except.ok.injEq] at h
    subst h
    refine ⟨rfl, id_ne_empty typ g m, ?_⟩
    unfold onestopGeneric
    have hne : ((typ ++ "-" ++ g ++ "-" ++ m) != "") = true := by
      simp [id_ne_empty typ g m]
    simp only [Bool.true_and, hne, if_true, Option.getD_some]

/-- A successful `onestop()` read stores the returned id in the cache
field, returns a truthy id, and a repeated read returns the same. -/
theorem onestopGeneric_ok (typ : String) (gh : Except OnestopError String)
    (m : String) (cached : Option String) (q : String × Option String)
    (h : onestopGeneric typ gh m cached true = .ok q) :
    q.2 = some q.1 ∧ q.1 ≠ "" ∧ onestopGeneric typ gh m q.2 true = .ok q := by
  unfold onestopGeneric at h
  cases cached with
  | none =>
    simp only [Bool.true_and, Bool.false_eq_true, if_false] at h
    exact onestopGeneric_fresh typ gh m q h
  | some w =>
    by_cases hw : w = ""
    · subst hw
      simp only [Bool.true_and, bne_self_eq_false, Bool.false_eq_true,
        if_false] at h
      exact onestopGeneric_fresh typ gh m q h
    · have hw2 : (w != "") = true := by simp [hw]
      simp only [Bool.true_and, hw2, if_true, Option.getD_some] at h
      simp only [Except.ok.injEq] at h
      subst h
      refine ⟨rfl, hw, ?_⟩
      unfold onestopGeneric
      simp only [Bool.true_and, hw2, if_true, Option.getD_some]

/-- Memoization scheme shared by the four variant `onestop()` methods:
`set` writes the cache field, which `gh`, `mg` do not read. -/
theorem variant_memo {E : Type} (t : String)
    (gh : E → Except OnestopError String) (mg : E → String)
    (get : E → Option String) (set : E → Option String → E)
    (call : E → Except OnestopError (String × E))
    (hcall : ∀ e, call e =
      (onestopGeneric t (gh e) (mg e) (get e) true).map fun p => (p.1, set e p.2))
    (hgh : ∀ e c, gh (set e c) = gh e)
    (hmg : ∀ e c, mg (set e c) = mg e)
    (hget : ∀ e c, get (set e c) = c)
    (hset2 : ∀ e c c2, set (set e c) c2 = set e c2) :
    (∀ e, (call e).bind (fun p => call p.2) = call e) ∧
    (∀ e, (call e).map (fun p => get p.2) = (call e).map (fun p => some p.1)) := by
  have key : ∀ e q, onestopGeneric t (gh e) (mg e) (get e) true = .ok q →
      call (set e q.2) = .ok (q.1, set e q.2) := by
    intro e q hq
    obtain ⟨h1, _, h3⟩ := onestopGeneric_ok _ _ _ _ _ hq
    rw [hcall (set e q.2), hgh, hmg, hget, h3]
    simp only [Except.map, hset2]
  constructor
  · intro e
    rw [hcall e]
    cases hg : onestopGeneric t (gh e) (mg e) (get e) true with
    | error err => rfl
    | ok q =>
      have h2 := key e q hg
      simp only [Except.map, Except.bind, h2]
  · intro e
    rw [hcall e]
    cases hg : onestopGeneric t (gh e) (mg e) (get e) true with
    | error err => rfl
    | ok q =>
      obtain ⟨h1, _, _⟩ := onestopGeneric_ok _ _ _ _ _ hg
      simp only [Except.map, hget, h1]

theorem map_fst_rebuild {α β : Type} (x : Except OnestopError (String × α))
    (f : String × α → String × β) (hf : ∀ p, (f p).1 = p.1) :
    (x.map f).map Prod.fst = x.map Prod.fst := by
  cases x with
  | error e => rfl
  | ok p => simp [Except.map, hf]

/-- `geohash_features` reads nothing but the located points of its
input, so two stop lists with equal point lists get equal geohashes. -/
theorem geohashFeatures_congr (centroid : List Point → Point)
    (neighborsfit : Point → List Point → String)
    (l1 l2 : List OnestopStop)
    (h : l1.filterMap OnestopStop.point = l2.filterMap OnestopStop.point) :
    geohashFeatures centroid neighborsfit l1 =
      geohashFeatures centroid neighborsfit l2 := by
  unfold geohashFeatures
  rw [h]

end Onestop

namespace Onestop

/-- Claim C4: identifier generation is deterministic and memoized.
Two entities of the same variant with equal name and equal geometry —
equal reachable stop points (`filterMap point` over `stops()`) for the
aggregate variants — whose ids have not yet been computed (empty
caches, the generated-id case) yield equal `onestop()` strings; and
for any single entity, calling `onestop()` again on the entity
returned by a call gives the identical result (the second read is
served from the cache the first call stored — the stored cache equals
the returned id). -/
theorem onestop_deterministic_memoized
    (encode : Point → String) (centroid : List Point → Point)
    (neighborsfit : Point → List Point → String)
    (s1 s2 : OnestopStop) (r1 r2 : OnestopRoute)
    (o1 o2 : OnestopOperator) (f1 f2 : OnestopFeed)
    (hs1 : s1._name = s2._name) (hs2 : s1._geometry = s2._geometry)
    (hs3 : s1._onestop = none) (hs4 : s2._onestop = none)
    (hr1 : r1._name = r2._name)
    (hr2 : r1.stops.filterMap OnestopStop.point =
      r2.stops.filterMap OnestopStop.point)
    (hr3 : r1._onestop = none) (hr4 : r2._onestop = none)
    (ho1 : o1._name = o2._name)
    (ho2 : o1.stops.filterMap OnestopStop.point =
      o2.stops.filterMap OnestopStop.point)
    (ho3 : o1._onestop = none) (ho4 : o2._onestop = none)
    (hf1 : f1._name = f2._name)
    (hf2 : f1.stops.filterMap OnestopStop.point =
      f2.stops.filterMap OnestopStop.point)
    (hf3 : f1._onestop = none) (hf4 : f2._onestop = none) :
    (OnestopStop.onestop encode true s1).map Prod.fst =
      (OnestopStop.onestop encode true s2).map Prod.fst ∧
    (OnestopRoute.onestop centroid neighborsfit true r1).map Prod.fst =
      (OnestopRoute.onestop centroid neighborsfit true r2).map Prod.fst ∧
    (OnestopOperator.onestop centroid neighborsfit true o1).map Prod.fst =
      (OnestopOperator.onestop centroid neighborsfit true o2).map Prod.fst ∧
    (OnestopFeed.onestop centroid neighborsfit true f1).map Prod.fst =
      (OnestopFeed.onestop centroid neighborsfit true f2).map Prod.fst ∧
    (∀ s, (OnestopStop.onestop encode true s).bind
        (fun p => OnestopStop.onestop encode true p.2) =
      OnestopStop.onestop encode true s) ∧
    (∀ r, (OnestopRoute.onestop centroid neighborsfit true r).bind
        (fun p => OnestopRoute.onestop centroid neighborsfit true p.2) =
      OnestopRoute.onestop centroid neighborsfit true r) ∧
    (∀ o, (OnestopOperator.onestop centroid neighborsfit true o).bind
        (fun p => OnestopOperator.onestop centroid neighborsfit true p.2) =
      OnestopOperator.onestop centroid neighborsfit true o) ∧
    (∀ f, (OnestopFeed.onestop centroid neighborsfit true f).bind
        (fun p => OnestopFeed.onestop centroid neighborsfit true p.2) =
      OnestopFeed.onestop centroid neighborsfit true f) ∧
    (∀ s, (OnestopStop.onestop encode true s).map (fun p => p.2._onestop) =
      (OnestopStop.onestop encode true s).map (fun p => some p.1)) ∧
    (∀ r, (OnestopRoute.onestop centroid neighborsfit true r).map
        (fun p => p.2._onestop) =
      (OnestopRoute.onestop centroid neighborsfit true r).map (fun p => some p.1)) ∧
    (∀ o, (OnestopOperator.onestop centroid neighborsfit true o).map
        (fun p => p.2._onestop) =
      (OnestopOperator.onestop centroid neighborsfit true o).map (fun p => some p.1)) ∧
    (∀ f, (OnestopFeed.onestop centroid neighborsfit true f).map
        (fun p => p.2._onestop) =
      (OnestopFeed.onestop centroid neighborsfit true f).map (fun p => some p.1)) := by
  have hsmemo := variant_memo "s" (fun s => OnestopStop.geohash encode s)
    (fun s => OnestopStop.mangle s._name) (fun s => s._onestop)
    (fun s c => { s with _onestop := c }) (OnestopStop.onestop encode true)
    (fun e => rfl) (fun e c => rfl) (fun e c => congrArg OnestopStop.mangle rfl)
    (fun e c => rfl) (fun e c c2 => rfl)
  have hrmemo := variant_memo "r"
    (fun r => OnestopRoute.geohash centroid neighborsfit r)
    (fun r => OnestopEntity.mangle r._name) (fun r => r._onestop)
    (fun r c => { r with _onestop := c })
    (OnestopRoute.onestop centroid neighborsfit true)
    (fun e => rfl) (fun e c => rfl) (fun e c => congrArg OnestopEntity.mangle rfl)
    (fun e c => rfl) (fun e c c2 => rfl)
  have homemo := variant_memo "o"
    (fun o => OnestopOperator.geohash centroid neighborsfit o)
    (fun o => OnestopEntity.mangle o._name) (fun o => o._onestop)
    (fun o c => { o with _onestop := c })
    (OnestopOperator.onestop centroid neighborsfit true)
    (fun e => rfl) (fun e c => rfl) (fun e c => congrArg OnestopEntity.mangle rfl)
    (fun e c => rfl) (fun e c c2 => rfl)
  have hfmemo := variant_memo "f"
    (fun f => OnestopFeed.geohash centroid neighborsfit f)
    (fun f => OnestopEntity.mangle f._name) (fun f => f._onestop)
    (fun f c => { f with _onestop := c })
    (OnestopFeed.onestop centroid neighborsfit true)
    (fun e => rfl) (fun e c => rfl) (fun e c => congrArg OnestopEntity.mangle rfl)
    (fun e c => rfl) (fun e c c2 => rfl)
  refine ⟨?_, ?_, ?_, ?_, hsmemo.1, hrmemo.1, homemo.1, hfmemo.1,
    hsmemo.2, hrmemo.2, homemo.2, hfmemo.2⟩
  · have hg : OnestopStop.geohash encode s1 = OnestopStop.geohash encode s2 := by
      unfold OnestopStop.geohash OnestopStop.point
      rw [hs2]
    have e1 : (OnestopStop.onestop encode true s1).map Prod.fst =
        (onestopGeneric "s" (OnestopStop.geohash encode s1)
          (OnestopStop.mangle s1._name) s1._onestop true).map Prod.fst :=
      map_fst_rebuild _ _ (fun _ => rfl)
    have e2 : (OnestopStop.onestop encode true s2).map Prod.fst =
        (onestopGeneric "s" (OnestopStop.geohash encode s2)
          (OnestopStop.mangle s2._name) s2._onestop true).map Prod.fst :=
      map_fst_rebuild _ _ (fun _ => rfl)
    rw [e1, e2, hg, hs1, hs3, hs4]
  · have hg : OnestopRoute.geohash centroid neighborsfit r1 =
        OnestopRoute.geohash centroid neighborsfit r2 := by
      unfold OnestopRoute.geohash
      exact geohashFeatures_congr centroid neighborsfit _ _ hr2
    have e1 : (OnestopRoute.onestop centroid neighborsfit true r1).map Prod.fst =
        (onestopGeneric "r" (OnestopRoute.geohash centroid neighborsfit r1)
          (OnestopEntity.mangle r1._name) r1._onestop true).map Prod.fst :=
      map_fst_rebuild _ _ (fun _ => rfl)
    have e2 : (OnestopRoute.onestop centroid neighborsfit true r2).map Prod.fst =
        (onestopGeneric "r" (OnestopRoute.geohash centroid neighborsfit r2)
          (OnestopEntity.mangle r2._name) r2._onestop true).map Prod.fst :=
      map_fst_rebuild _ _ (fun _ => rfl)
    rw [e1, e2, hg, hr1, hr3, hr4]
  · have hg : OnestopOperator.geohash centroid neighborsfit o1 =
        OnestopOperator.geohash centroid neighborsfit o2 := by
      unfold OnestopOperator.geohash
      exact geohashFeatures_congr centroid neighborsfit _ _ ho2
    have e1 : (OnestopOperator.onestop centroid neighborsfit true o1).map Prod.fst =
        (onestopGeneric "o" (OnestopOperator.geohash centroid neighborsfit o1)
          (OnestopEntity.mangle o1._name) o1._onestop true).map Prod.fst :=
      map_fst_rebuild _ _ (fun _ => rfl)
    have e2 : (OnestopOperator.onestop centroid neighborsfit true o2).map Prod.fst =
        (onestopGeneric "o" (OnestopOperator.geohash centroid neighborsfit o2)
          (OnestopEntity.mangle o2._name) o2._onestop true).map Prod.fst :=
      map_fst_rebuild _ _ (fun _ => rfl)
    rw [e1, e2, hg, ho1, ho3, ho4]
  · have hg : OnestopFeed.geohash centroid neighborsfit f1 =
        OnestopFeed.geohash centroid neighborsfit f2 := by
      unfold OnestopFeed.geohash
      exact geohashFeatures_congr centroid neighborsfit _ _ hf2
    have e1 : (OnestopFeed.onestop centroid neighborsfit true f1).map Prod.fst =
        (onestopGeneric "f" (OnestopFeed.geohash centroid neighborsfit f1)
          (OnestopEntity.mangle f1._name) f1._onestop true).map Prod.fst :=
      map_fst_rebuild _ _ (fun _ => rfl)
    have e2 : (OnestopFeed.onestop centroid neighborsfit true f2).map Prod.fst =
        (onestopGeneric "f" (OnestopFeed.geohash centroid neighborsfit f2)
          (OnestopEntity.mangle f2._name) f2._onestop true).map Prod.fst :=
      map_fst_rebuild _ _ (fun _ => rfl)
    rw [e1, e2, hg, hf1, hf3, hf4]

end Onestop

namespace Onestop

/-- Witness for `onestop_deterministic_memoized`: two fresh stops that
agree on name and geometry but differ in provenance get the same id;
two fresh routes whose stops carry the same points but differ in
provenance get the same id; and a repeated read on a concrete stop is
stable. -/
theorem onestop_deterministic_memoized_witness :
    (OnestopStop.onestop sampleEncode true sampleStop).map Prod.fst =
      (OnestopStop.onestop sampleEncode true sampleStop2).map Prod.fst ∧
    (OnestopRoute.onestop sampleCentroid sampleNf true sampleRoute).map
        Prod.fst =
      (OnestopRoute.onestop sampleCentroid sampleNf true sampleRoute2).map
        Prod.fst ∧
    (OnestopStop.onestop sampleEncode true sampleStop).bind
        (fun p => OnestopStop.onestop sampleEncode true p.2) =
      OnestopStop.onestop sampleEncode true sampleStop := by
  have h := onestop_deterministic_memoized sampleEncode sampleCentroid sampleNf
    sampleStop sampleStop2 sampleRoute sampleRoute2 sampleOperator
    sampleOperator sampleFeed sampleFeed rfl rfl rfl rfl rfl (by decide) rfl
    rfl rfl rfl rfl rfl rfl rfl rfl rfl
  exact ⟨h.1, h.2.1, h.2.2.2.2.1 sampleStop⟩

end Onestop


namespace Onestop

/-! ### Claims C6 and C10 (no-points error, silent exclusion of
unlocatable stops) -/

theorem geohashFeatures_error_iff (centroid : List Point → Point)
    (neighborsfit : Point → List Point → String) (feats : List OnestopStop) :
    geohashFeatures centroid neighborsfit feats = .error .noPoints ↔
      ∀ s ∈ feats, s.point = none := by
  unfold geohashFeatures
  by_cases h : feats.filterMap OnestopStop.point = []
  · simp only [h, if_true]
    rw [List.filterMap_eq_nil_iff] at h
    exact ⟨fun _ => h, fun _ => trivial⟩
  · simp only [h, if_false]
    rw [List.filterMap_eq_nil_iff] at h
    exact ⟨fun hc => absurd hc (by simp), fun hall => absurd hall h⟩

theorem geohashFeatures_ok_of_some (centroid : List Point → Point)
    (neighborsfit : Point → List Point → String) (feats : List OnestopStop)
    (h : ∃ s ∈ feats, (s.point).isSome) :
    geohashFeatures centroid neighborsfit feats =
      .ok (neighborsfit (centroid (feats.filterMap OnestopStop.point))
        (feats.filterMap OnestopStop.point)) ∧
    feats.filterMap OnestopStop.point ≠ [] := by
  have hne : feats.filterMap OnestopStop.point ≠ [] := by
    rw [Ne, List.filterMap_eq_nil_iff]
    intro hall
    obtain ⟨s, hs, hsome⟩ := h
    rw [hall s hs] at hsome
    simp at hsome
  refine ⟨?_, hne⟩
  unfold geohashFeatures
  simp only [hne, if_false]

theorem filterMap_filter_isSome {α β : Type} (f : α → Option β) (l : List α) :
    (l.filter (fun a => (f a).isSome)).filterMap f = l.filterMap f := by
  induction l with
  | nil => rfl
  | cons a t ih =>
    cases h : f a with
    | none => simp [List.filter_cons, List.filterMap_cons, h, ih]
    | some b => simp [List.filter_cons, List.filterMap_cons, h, ih]

theorem map_error_iff {α β : Type} (x : Except OnestopError α) (f : α → β)
    (e : OnestopError) : x.map f = .error e ↔ x = .error e := by
  cases x with
  | error e2 => simp [Except.map]
  | ok a => simp [Except.map]

theorem onestopGeneric_none_error_iff (typ : String)
    (gh : Except OnestopError String) (m : String) (e : OnestopError) :
    onestopGeneric typ gh m none true = .error e ↔ gh = .error e := by
  unfold onestopGeneric
  simp only [Bool.true_and, Bool.false_eq_true, if_false]
  exact map_error_iff gh _ e

end Onestop

namespace Onestop

/-- Claim C6: for every aggregate entity (Feed, Operator, Route),
`geohash()` raises the no-locatable-points error exactly when zero
stops reachable through its descendants have a locatable point; when
at least one reachable stop has a point it returns a non-empty geohash
string (the external `neighborsfit` is assumed to return non-empty
output on non-empty input, the spec's contract); and hence a
first-time `onestop()` computation (empty cache) raises the no-points
error under exactly the same condition. -/
theorem aggregate_geohash_no_points
    (centroid : List Point → Point)
    (neighborsfit : Point → List Point → String)
    (hnf : ∀ c pts, pts ≠ [] → neighborsfit c pts ≠ "")
    (f : OnestopFeed) (o : OnestopOperator) (r : OnestopRoute) :
    (OnestopFeed.geohash centroid neighborsfit f = .error .noPoints ↔
      ∀ s ∈ f.stops, s.point = none) ∧
    (OnestopOperator.geohash centroid neighborsfit o = .error .noPoints ↔
      ∀ s ∈ o.stops, s.point = none) ∧
    (OnestopRoute.geohash centroid neighborsfit r = .error .noPoints ↔
      ∀ s ∈ r.stops, s.point = none) ∧
    ((∃ s ∈ f.stops, (s.point).isSome) →
      ∃ g, OnestopFeed.geohash centroid neighborsfit f = .ok g ∧ g ≠ "") ∧
    ((∃ s ∈ o.stops, (s.point).isSome) →
      ∃ g, OnestopOperator.geohash centroid neighborsfit o = .ok g ∧ g ≠ "") ∧
    ((∃ s ∈ r.stops, (s.point).isSome) →
      ∃ g, OnestopRoute.geohash centroid neighborsfit r = .ok g ∧ g ≠ "") ∧
    (f._onestop = none →
      (OnestopFeed.onestop centroid neighborsfit true f = .error .noPoints ↔
        ∀ s ∈ f.stops, s.point = none)) ∧
    (o._onestop = none →
      (OnestopOperator.onestop centroid neighborsfit true o =
          .error .noPoints ↔
        ∀ s ∈ o.stops, s.point = none)) ∧
    (r._onestop = none →
      (OnestopRoute.onestop centroid neighborsfit true r = .error .noPoints ↔
        ∀ s ∈ r.stops, s.point = none)) := by
  refine ⟨geohashFeatures_error_iff centroid neighborsfit f.stops,
    geohashFeatures_error_iff centroid neighborsfit o.stops,
    geohashFeatures_error_iff centroid neighborsfit r.stops,
    ?_, ?_, ?_, ?_, ?_, ?_⟩
  · intro h
    obtain ⟨heq, hne⟩ := geohashFeatures_ok_of_some centroid neighborsfit _ h
    exact ⟨_, heq, hnf _ _ hne⟩
  · intro h
    obtain ⟨heq, hne⟩ := geohashFeatures_ok_of_some centroid neighborsfit _ h
    exact ⟨_, heq, hnf _ _ hne⟩
  · intro h
    obtain ⟨heq, hne⟩ := geohashFeatures_ok_of_some centroid neighborsfit _ h
    exact ⟨_, heq, hnf _ _ hne⟩
  · intro hc
    unfold OnestopFeed.onestop
    rw [hc, map_error_iff, onestopGeneric_none_error_iff]
    exact geohashFeatures_error_iff centroid neighborsfit f.stops
  · intro hc
    unfold OnestopOperator.onestop
    rw [hc, map_error_iff, onestopGeneric_none_error_iff]
    exact geohashFeatures_error_iff centroid neighborsfit o.stops
  · intro hc
    unfold OnestopRoute.onestop
    rw [hc, map_error_iff, onestopGeneric_none_error_iff]
    exact geohashFeatures_error_iff centroid neighborsfit r.stops

/-- Witness for `aggregate_geohash_no_points`: a feed with one located
stop gets a non-empty geohash, and a route whose only stop has no
coordinates raises the no-points error. -/
theorem aggregate_geohash_no_points_witness :
    (∃ g, OnestopFeed.geohash sampleCentroid sampleNf sampleFeed = .ok g ∧
      g ≠ "") ∧
    OnestopRoute.geohash sampleCentroid sampleNf emptyRoute =
      .error .noPoints := by
  have h := aggregate_geohash_no_points sampleCentroid sampleNf
    (by intro c pts hp; unfold sampleNf; decide) sampleFeed sampleOperator
    emptyRoute
  exact ⟨h.2.2.2.1 ⟨sampleStop, by decide, by decide⟩,
    h.2.2.1.mpr (by decide)⟩

/-- Claim C10: when computing an aggregate entity's geohash via
`geohash_features`, stops whose geometry yields no locatable point are
silently excluded — the result equals the one computed from the
located subset alone, with centroid and bounding cell taken over the
located points only — and no error is raised as long as at least one
reachable stop is locatable. -/
theorem geohashFeatures_ignores_unlocatable (centroid : List Point → Point)
    (neighborsfit : Point → List Point → String) (feats : List OnestopStop) :
    geohashFeatures centroid neighborsfit feats =
      geohashFeatures centroid neighborsfit
        (feats.filter (fun s => (OnestopStop.point s).isSome)) ∧
    ((∃ s ∈ feats, (s.point).isSome) →
      geohashFeatures centroid neighborsfit feats =
        .ok (neighborsfit (centroid (feats.filterMap OnestopStop.point))
          (feats.filterMap OnestopStop.point))) := by
  constructor
  · have hpts := filterMap_filter_isSome OnestopStop.point feats
    unfold geohashFeatures
    rw [hpts]
  · intro h
    exact (geohashFeatures_ok_of_some centroid neighborsfit feats h).1

/-- Witness for `geohashFeatures_ignores_unlocatable`: a located stop
next to an unlocatable one yields the geohash of the located subset,
with no error. -/
theorem geohashFeatures_ignores_unlocatable_witness :
    geohashFeatures sampleCentroid sampleNf [sampleStop, unlocatedStop] =
      .ok (sampleNf (sampleCentroid [(1, 2)]) [(1, 2)]) :=
  (geohashFeatures_ignores_unlocatable sampleCentroid sampleNf
    [sampleStop, unlocatedStop]).2 ⟨sampleStop, by decide, by decide⟩

end Onestop

namespace Onestop

/-! ### Claim C7 (zero-stop route records are skipped and reported) -/

/-- Claim C7: during ingestion, a raw route record with zero stops is
rejected before any graph linking — the `routes` registry, the
operator's `children` and the counter are left exactly as they were,
so the skipped route is never linked to any stop or to the operator —
and the skip is reported (the printed notice is appended to the output
log), never silently dropped. -/
theorem ingest_skips_empty_route (centroid : List Point → Point)
    (neighborsfit : Point → List Point → String)
    (st : AgencyState) (rec : RouteRec) (h : rec.stops = []) :
    ingestRoute centroid neighborsfit st rec =
      .ok { routes := st.routes, children := st.children,
            route_counter := st.route_counter,
            log := st.log ++ ["Yikes! No stops! Skipping this route."] } := by
  unfold ingestRoute
  rw [if_pos h]

/-- Witness for `ingest_skips_empty_route`: a stopless record leaves
an empty agency state untouched except for the printed notice. -/
theorem ingest_skips_empty_route_witness :
    ingestRoute sampleCentroid sampleNf
      { routes := [], children := [], route_counter := 0, log := [] }
      { name := "no stops", rid := "r0", data := [], geometry := none,
        stops := [] } =
    .ok { routes := [], children := [], route_counter := 0,
          log := ["Yikes! No stops! Skipping this route."] } := by
  have h := ingest_skips_empty_route sampleCentroid sampleNf
    { routes := [], children := [], route_counter := 0, log := [] }
    { name := "no stops", rid := "r0", data := [], geometry := none,
      stops := [] } rfl
  simpa using h

end Onestop

namespace Onestop

/-! ### Claim C3 (route id collision: one disambiguation retry) -/

theorem onestopGeneric_none_ok (typ g m : String) :
    onestopGeneric typ (.ok g) m none true =
      .ok (typ ++ "-" ++ g ++ "-" ++ m, some (typ ++ "-" ++ g ++ "-" ++ m)) := by
  unfold onestopGeneric
  simp [Except.map]

/-- A fresh route (empty cache) computes its id from its stops'
geohash and its mangled name, and stores it. -/
theorem route_onestop_fresh (centroid : List Point → Point)
    (neighborsfit : Point → List Point → String)
    (name : String) (geom : Option Point) (ids : List IdRecord) (tg : Tags)
    (stops : List OnestopStop) (g : String)
    (hg : geohashFeatures centroid neighborsfit stops = .ok g) :
    OnestopRoute.onestop centroid neighborsfit true
      { _name := name, _onestop := none, _geometry := geom,
        identifiers := ids, tags := tg, children := stops } =
      .ok ("r-" ++ g ++ "-" ++ OnestopEntity.mangle name,
        { _name := name,
          _onestop := some ("r-" ++ g ++ "-" ++ OnestopEntity.mangle name),
          _geometry := geom, identifiers := ids, tags := tg,
          children := stops }) := by
  unfold OnestopRoute.onestop OnestopRoute.geohash OnestopRoute.stops
  rw [hg, onestopGeneric_none_ok]
  rfl

/-- Claim C3 (amended): when a newly built route's id collides with an
id already registered for the operator, the engine appends the
deterministic suffix `~route_counter` to the new route's name,
invalidates its cached id and recomputes — ONCE, not in a loop.  When
the recomputed id is fresh (the hypothesis `hfresh`), the new route is
registered under it: the colliding routes end up with distinct ids and
nothing already in the state is mutated — the previous `routes`
entries and `children` are preserved unchanged, only the new route
carries the suffixed name.  (When even the retried id collides the
code raises `AssertionError` instead of retrying further — see the
counterexample.) -/
theorem ingest_collision_single_retry (centroid : List Point → Point)
    (neighborsfit : Point → List Point → String)
    (st : AgencyState) (rec : RouteRec) (g name2 key key2 : String)
    (hne : rec.stops ≠ [])
    (hg : geohashFeatures centroid neighborsfit rec.stops = .ok g)
    (hname2 : name2 = rec.name ++ "~" ++ toString (st.route_counter + 1))
    (hkey : key = "r-" ++ g ++ "-" ++ OnestopEntity.mangle rec.name)
    (hkey2 : key2 = "r-" ++ g ++ "-" ++ OnestopEntity.mangle name2)
    (hcol : key ∈ st.routes.map Prod.fst)
    (hfresh : key2 ∉ st.routes.map Prod.fst) :
    ingestRoute centroid neighborsfit st rec = .ok
      { routes := st.routes ++ [(key2,
          { _name := name2, _onestop := some key2,
            _geometry := rec.geometry,
            identifiers := [(rec.rid, rec.data)], tags := [],
            children := rec.stops })],
        children := st.children ++ [
          { _name := name2, _onestop := some key2,
            _geometry := rec.geometry,
            identifiers := [(rec.rid, rec.data)], tags := [],
            children := rec.stops }],
        route_counter := st.route_counter + 1,
        log := st.log ++ ["Route already exists, setting temp fix...",
          "set key to: " ++ key2] } ∧
    key2 ≠ key := by
  subst hname2 hkey hkey2
  refine ⟨?_, fun heq => hfresh (heq ▸ hcol)⟩
  unfold ingestRoute
  rw [if_neg hne]
  dsimp only
  rw [route_onestop_fresh centroid neighborsfit rec.name rec.geometry [] []
    rec.stops g hg]
  simp only [if_pos hcol]
  rw [route_onestop_fresh centroid neighborsfit
    (rec.name ++ "~" ++ toString (st.route_counter + 1)) rec.geometry [] []
    rec.stops g hg]
  simp only [if_neg hfresh]
  unfold OnestopEntity.add_identifier
  simp

end Onestop

namespace Onestop

/-- Witness for `ingest_collision_single_retry`: the colliding record
is registered as `r-9qs-a~1`, distinct from the existing `r-9qs-a`,
with the existing entries untouched. -/
theorem ingest_collision_single_retry_witness :
    ingestRoute sampleCentroid sampleNf wState wRec = .ok
      { routes := [("r-9qs-a", wExistingRoute), ("r-9qs-a~1",
          { _name := "a~1", _onestop := some "r-9qs-a~1", _geometry := none,
            identifiers := [("rnew", [])], tags := [],
            children := [sampleStop] })],
        children := [wExistingRoute,
          { _name := "a~1", _onestop := some "r-9qs-a~1", _geometry := none,
            identifiers := [("rnew", [])], tags := [],
            children := [sampleStop] }],
        route_counter := 1,
        log := ["Route already exists, setting temp fix...",
          "set key to: r-9qs-a~1"] } ∧
    ("r-9qs-a~1" : String) ≠ "r-9qs-a" := by
  have h := ingest_collision_single_retry sampleCentroid sampleNf wState wRec
    "9qs" "a~1" "r-9qs-a" "r-9qs-a~1" (by decide) (by decide) (by decide)
    (by decide) (by decide) (by decide) (by decide)
  exact h

/-- Counterexample to claim C3 as stated ("retrying until the id is
unique within that operator"): ingest, in order, routes named `a~1`,
`a`, `a`, all sharing one stop (hence one geohash).  The third route
collides with the second; the single disambiguation retry renames it
to `a~1`, whose id is the FIRST route's id, and the code fails with an
`AssertionError` instead of retrying again — the colliding routes do
not end up with distinct ids. -/
theorem ingest_collision_counterexample :
    ingestRoutes sampleCentroid sampleNf
      { routes := [], children := [], route_counter := 0, log := [] }
      [ { name := "a~1", rid := "r1", data := [], geometry := none,
          stops := [sampleStop] },
        { name := "a", rid := "r2", data := [], geometry := none,
          stops := [sampleStop] },
        { name := "a", rid := "r3", data := [], geometry := none,
          stops := [sampleStop] } ] = .error .assertionError := by
  decide

end Onestop

namespace Onestop

/-! ### Claim C9 (route serialization needs an agency parent) -/

/-- Claim C9: the route attribute projection `json()` is defined only
for a route with at least one agency parent.  It emits `operatedBy` as
the onestop id of the first element of `agencies()`; with zero parents
the projection fails with `IndexError` (indexing `[...][0]` into an
empty list) rather than emitting output without `operatedBy`. -/
theorem route_json_requires_agency (encode : Point → String)
    (centroid : List Point → Point)
    (neighborsfit : Point → List Point → String) (r : OnestopRoute) :
    (∀ p, OnestopRoute.onestop centroid neighborsfit true r = .ok p →
      OnestopRoute.json encode centroid neighborsfit r [] =
        .error .indexError) ∧
    (∀ a ags j,
      OnestopRoute.json encode centroid neighborsfit r (a :: ags) = .ok j →
      ∃ q, OnestopOperator.onestop centroid neighborsfit true a = .ok q ∧
        j.operatedBy = q.1) := by
  constructor
  · intro p hp
    unfold OnestopRoute.json
    rw [hp]
    rfl
  · intro a ags j hj
    unfold OnestopRoute.json at hj
    cases h1 : OnestopRoute.onestop centroid neighborsfit true r with
    | error e =>
      rw [h1] at hj
      exact absurd hj (by simp)
    | ok p =>
      rw [h1] at hj
      unfold operatorOnestops at hj
      cases h2 : OnestopOperator.onestop centroid neighborsfit true a with
      | error e =>
        rw [h2] at hj
        exact absurd hj (by simp)
      | ok q =>
        rw [h2] at hj
        cases h3 : operatorOnestops centroid neighborsfit ags with
        | error e =>
          rw [h3] at hj
          exact absurd hj (by simp)
        | ok rest =>
          rw [h3] at hj
          cases h4 : stopOnestops encode r.stops with
          | error e =>
            rw [h4] at hj
            simp only [List.head?] at hj
            exact absurd hj (by simp)
          | ok serves =>
            rw [h4] at hj
            simp only [List.head?, Except.ok.injEq] at hj
            refine ⟨q, rfl, ?_⟩
            rw [← hj]

end Onestop

namespace Onestop

/-- Witness for `route_json_requires_agency`: with zero agency parents
the projection raises `IndexError`; with one parent it emits that
parent's id as `operatedBy`. -/
theorem route_json_requires_agency_witness :
    OnestopRoute.json sampleEncode sampleCentroid sampleNf wJsonRoute [] =
      .error .indexError ∧
    ∃ q, OnestopOperator.onestop sampleCentroid sampleNf true wAgency =
        .ok q ∧
      ({ geometry := none, onestopId := "r-cached", name := "x", tags := [],
         identifiers := [], operatedBy := "o-cached",
         serves := [] } : RouteJson).operatedBy = q.1 := by
  have h := route_json_requires_agency sampleEncode sampleCentroid sampleNf
    wJsonRoute
  exact ⟨h.1 ("r-cached", wJsonRoute) (by decide),
    h.2 wAgency []
      { geometry := none, onestopId := "r-cached", name := "x", tags := [],
        identifiers := [], operatedBy := "o-cached", serves := [] }
      (by decide)⟩

end Onestop
